import Mathlib

/-!
Shallow embedding of the civic-issue reporting portal (`src/app.js`).

The relational store (MySQL `reports` table) is modelled as an in-memory list
of rows; the unique key on `case_id`, the `status` ENUM column and the
`AUTO_INCREMENT` surrogate id are made explicit.  Each Express handler is
translated to a pure function from the database state to a response and a new
state; the `try { ... } catch { ... } finally { conn.release() }` shape of
every handler is mirrored by `runHandler`, which acquires a pool connection
(a counter) before the body and releases it after the body on every path.
An unexpected store failure thrown inside a handler's `try` block is modelled
by the boolean oracle `dbFail`; the random draw of `Math.random()*1e6` and
`Date.now()` are oracles `rand` / `now`, and `new Date().getFullYear()` is the
oracle `year`.
-/

namespace Technova

/-- The `status` ENUM of the `reports` table (app.js line 43). -/
inductive Status where
  | NEW
  | UNDER_REVIEW
  | VERIFIED
  | ACTION_TAKEN
  | CLOSED
deriving DecidableEq, Repr

/-- The ENUM column accepts exactly the five declared values; any other
string is rejected by the store (strict mode), which is what the catch
branch of the status handler observes. -/
def parseStatus : String → Option Status
  | "NEW" => some Status.NEW
  | "UNDER_REVIEW" => some Status.UNDER_REVIEW
  | "VERIFIED" => some Status.VERIFIED
  | "ACTION_TAKEN" => some Status.ACTION_TAKEN
  | "CLOSED" => some Status.CLOSED
  | _ => none

/-- One row of the `reports` table (app.js lines 33-45).  `NULL`able columns
are `Option`s; `created_at` is the store-assigned timestamp. -/
structure Report where
  id : Nat
  case_id : String
  citizen_name : Option String
  email : Option String
  phone : Option String
  image_path : Option String
  location : String
  description : Option String
  issue_type : String
  status : Status
  created_at : Nat
deriving DecidableEq, Repr

/-- The reports table plus the `AUTO_INCREMENT` counter.  Rows are kept in
insertion order, so ids are ascending. -/
structure DB where
  reports : List Report
  nextId : Nat
deriving DecidableEq, Repr

/-- JS truthiness test used by `if (!location || !issue_type)`: an absent
field (`undefined`) and the empty string are both falsy. -/
def falsy : Option String → Bool
  | none => true
  | some s => s == ""

/-- The `x || null` coercion applied to the optional INSERT parameters
(app.js lines 156 and 204): `undefined` and `""` both become SQL `NULL`. -/
def orNull : Option String → Option String
  | none => none
  | some s => if s = "" then none else some s

/-- The query `SELECT ... WHERE case_id = ?` returning `rows[0]`. -/
def findByCaseId (db : DB) (c : String) : Option Report :=
  db.reports.find? (fun r => r.case_id == c)

/-- The query `SELECT ... WHERE id = ?` returning `rows[0]`. -/
def findById (db : DB) (i : Nat) : Option Report :=
  db.reports.find? (fun r => r.id == i)

/-- Does some row already hold this `case_id`?  (The UNIQUE key check.) -/
def hasCaseId (db : DB) (c : String) : Bool :=
  db.reports.any (fun r => r.case_id == c)

/-- Distinguishable store-level failures of a write. -/
inductive DbError where
  | duplicateKey
deriving DecidableEq, Repr

/-- The INSERT of both submission handlers (app.js lines 153-157, 201-205):
status is not supplied, so the column default `NEW` applies; `created_at` is
set by the store; the UNIQUE key on `case_id` makes a duplicate fail
atomically. -/
def insertReport (db : DB) (c : String) (cn em ph ip : Option String)
    (loc : String) (desc : Option String) (ity : String) (now : Nat) :
    Except DbError (DB × Report) :=
  if hasCaseId db c then Except.error DbError.duplicateKey
  else
    let r : Report :=
      { id := db.nextId, case_id := c, citizen_name := cn, email := em,
        phone := ph, image_path := ip, location := loc, description := desc,
        issue_type := ity, status := Status.NEW, created_at := now }
    Except.ok ({ reports := db.reports ++ [r], nextId := db.nextId + 1 }, r)

/-- The statement `UPDATE reports SET status=? WHERE id=?` (app.js line 301): touches only
the `status` column of the matching row; matching zero rows is a success. -/
def updateStatusRows (reports : List Report) (i : Nat) (st : Status) :
    List Report :=
  reports.map (fun r => if r.id = i then { r with status := st } else r)

/-- JS `s.padStart(6, '0')` (app.js line 127). -/
def padStart6 (s : String) : String :=
  if s.length < 6 then String.mk (List.replicate (6 - s.length) '0') ++ s
  else s

/-- Helper `genCaseId` (app.js lines 124-129): `REP${year}${seq}` where `seq` is
`Math.floor(Math.random()*1e6)` rendered in decimal and left-padded with
zeros to 6 characters.  `year` is the oracle for `getFullYear()` and `rand`
for the random draw (`rand < 1000000`). -/
def genCaseId (year rand : Nat) : String :=
  "REP" ++ Nat.repr year ++ padStart6 (Nat.repr rand)

/-- The machine projection returned by `GET /api/reports/:caseId`
(app.js line 221): exactly these five columns are selected. -/
structure TrackProjection where
  case_id : String
  status : Status
  issue_type : String
  location : String
  created_at : Nat
deriving DecidableEq, Repr

def projectReport (r : Report) : TrackProjection :=
  { case_id := r.case_id, status := r.status, issue_type := r.issue_type,
    location := r.location, created_at := r.created_at }

/-- Response bodies actually produced by the modelled handlers. -/
inductive Body where
  | jsonError (error : String)
  | jsonOkCase (case_id : String)
  | jsonFail
  | jsonProj (p : TrackProjection)
  | text (s : String)
  | successPage (caseId : String)
  | trackPage (report : Option Report)
  | casePage (r : Report)
  | redirectTo (loc : String)
deriving DecidableEq, Repr

structure HttpResponse where
  status : Nat
  body : Body
deriving DecidableEq, Repr

/-- A multipart submission as the handlers see it.  `photo` is the
multer-generated filename when a file was uploaded and accepted; text fields
absent from the form body are `none`. -/
structure SubmitReq where
  location : Option String
  description : Option String
  issue_type : Option String
  citizen_name : Option String
  email : Option String
  phone : Option String
  photo : Option String
deriving DecidableEq, Repr

/-- Body of `POST /api/reports` (app.js lines 192-213): validate, generate a
case id once, insert; any store error lands in the catch branch which answers
`500 {ok:false, error:'failed'}`.  There is no retry. -/
def postApiReportsBody (req : SubmitReq) (year rand now : Nat) (dbFail : Bool)
    (db : DB) : HttpResponse × DB :=
  if falsy req.location || falsy req.issue_type then
    (⟨400, Body.jsonError "location and issue_type required"⟩, db)
  else
    let case_id := genCaseId year rand
    let image_path := req.photo.map (fun f => "/uploads/" ++ f)
    if dbFail then (⟨500, Body.jsonFail⟩, db)
    else
      match insertReport db case_id (orNull req.citizen_name)
          (orNull req.email) (orNull req.phone) image_path
          (req.location.getD "") (orNull req.description)
          (req.issue_type.getD "") now with
      | Except.ok (db2, _) => (⟨200, Body.jsonOkCase case_id⟩, db2)
      | Except.error _ => (⟨500, Body.jsonFail⟩, db)

/-- Body of `POST /report` (app.js lines 145-165): no validation; an absent
`location` or `issue_type` makes the INSERT itself fail (undefined bind
parameter / NOT NULL column), landing in the catch branch. -/
def postReportBody (req : SubmitReq) (year rand now : Nat) (dbFail : Bool)
    (db : DB) : HttpResponse × DB :=
  let case_id := genCaseId year rand
  let image_path := req.photo.map (fun f => "/uploads/" ++ f)
  if dbFail then (⟨500, Body.text "Failed to submit report."⟩, db)
  else
    match req.location, req.issue_type with
    | some loc, some ity =>
      match insertReport db case_id (orNull req.citizen_name)
          (orNull req.email) (orNull req.phone) image_path loc
          (orNull req.description) ity now with
      | Except.ok (db2, _) => (⟨200, Body.successPage case_id⟩, db2)
      | Except.error _ => (⟨500, Body.text "Failed to submit report."⟩, db)
    | _, _ => (⟨500, Body.text "Failed to submit report."⟩, db)

/-- Body of `GET /api/reports/:caseId` (app.js lines 215-230). -/
def getApiReportBody (caseId : String) (dbFail : Bool) (db : DB) :
    HttpResponse × DB :=
  if dbFail then (⟨500, Body.jsonError "failed"⟩, db)
  else
    match findByCaseId db caseId with
    | none => (⟨404, Body.jsonError "not found"⟩, db)
    | some r => (⟨200, Body.jsonProj (projectReport r)⟩, db)

/-- Body of `GET /track/:caseId` (app.js lines 173-189): renders the page
with the full row, or with no report. -/
def trackBody (caseId : String) (dbFail : Bool) (db : DB) :
    HttpResponse × DB :=
  if dbFail then (⟨500, Body.text "Failed to fetch case."⟩, db)
  else (⟨200, Body.trackPage (findByCaseId db caseId)⟩, db)

/-- Body of `POST /admin/case/:id/status` (app.js lines 294-309): the UPDATE
is attempted unconditionally; an invalid ENUM value is rejected by the store
and caught (500); otherwise the handler redirects, whether or not any row
matched. -/
def adminStatusBody (i : Nat) (stStr : String) (dbFail : Bool) (db : DB) :
    HttpResponse × DB :=
  if dbFail then (⟨500, Body.text "Failed to update status"⟩, db)
  else
    match parseStatus stStr with
    | none => (⟨500, Body.text "Failed to update status"⟩, db)
    | some st =>
      (⟨302, Body.redirectTo ("/admin/case/" ++ Nat.repr i)⟩,
       { db with reports := updateStatusRows db.reports i st })

/-- Body of `GET /admin/case/:id` (app.js lines 277-292). -/
def adminCaseBody (i : Nat) (dbFail : Bool) (db : DB) : HttpResponse × DB :=
  if dbFail then (⟨500, Body.text "Failed to load case"⟩, db)
  else
    match findById db i with
    | none => (⟨404, Body.text "Not found"⟩, db)
    | some r => (⟨200, Body.casePage r⟩, db)

/-- Process state: the database plus the number of pool connections
currently held. -/
structure World where
  db : DB
  held : Nat
deriving DecidableEq, Repr

/-- The shared handler skeleton: `pool.getConnection()` before the body,
`conn.release()` in `finally` — the release happens on every path, whether
the body answered normally or through its catch branch. -/
def runHandler (w : World) (body : DB → HttpResponse × DB) :
    HttpResponse × World :=
  let heldIn := w.held + 1
  let out := body w.db
  (out.1, { db := out.2, held := heldIn - 1 })

/-- The modelled operations of the service, with their oracles. -/
inductive Op where
  | apiSubmit (req : SubmitReq) (year rand now : Nat) (dbFail : Bool)
  | submit (req : SubmitReq) (year rand now : Nat) (dbFail : Bool)
  | apiLookup (caseId : String) (dbFail : Bool)
  | track (caseId : String) (dbFail : Bool)
  | adminStatus (i : Nat) (st : String) (dbFail : Bool)
  | adminCase (i : Nat) (dbFail : Bool)
deriving DecidableEq, Repr

/-- One request against the service. -/
def step (op : Op) (w : World) : HttpResponse × World :=
  match op with
  | Op.apiSubmit req year rand now dbFail =>
    runHandler w (postApiReportsBody req year rand now dbFail)
  | Op.submit req year rand now dbFail =>
    runHandler w (postReportBody req year rand now dbFail)
  | Op.apiLookup c dbFail => runHandler w (getApiReportBody c dbFail)
  | Op.track c dbFail => runHandler w (trackBody c dbFail)
  | Op.adminStatus i st dbFail => runHandler w (adminStatusBody i st dbFail)
  | Op.adminCase i dbFail => runHandler w (adminCaseBody i dbFail)

/-- The expression `path.extname(name).toLowerCase()` as used by multer's storage and
filter (app.js lines 110, 117): the extension is the final dot of the
basename together with what follows it; a dot in first position of the
basename yields no extension. -/
def extname (s : String) : String :=
  let base := (s.data.reverse.takeWhile (fun c => c ≠ '/')).reverse
  let rext := base.reverse.takeWhile (fun c => c ≠ '.')
  if rext.length + 1 ≤ base.length then
    if rext.length + 1 = base.length then ""
    else String.mk ('.' :: rext.reverse)
  else ""

def lowerStr (s : String) : String :=
  String.mk (s.data.map Char.toLower)

/-- The allow-list of `fileFilter` (app.js line 116). -/
def allowedExts : List String := [".jpg", ".jpeg", ".png"]

/-- The `fileFilter` callback (app.js lines 115-120). -/
def fileFilterOk (originalname : String) : Bool :=
  allowedExts.contains (lowerStr (extname originalname))

/-- The multer limit `fileSize: 5 * 1024 * 1024` (app.js line 121). -/
def fileSizeLimit : Nat := 5 * 1024 * 1024

inductive UploadError where
  | validErr (msg : String)
  | payloadTooLarge
deriving DecidableEq, Repr

/-- Multer's treatment of a single uploaded file: the filter rejects a
disallowed extension with the error built at app.js line 118, and the
`fileSize` limit aborts a file beyond 5 MiB (`LIMIT_FILE_SIZE`). -/
def mediaIntake (originalname : String) (size : Nat) :
    Except UploadError Unit :=
  if fileFilterOk originalname then
    if size ≤ fileSizeLimit then Except.ok ()
    else Except.error UploadError.payloadTooLarge
  else Except.error (UploadError.validErr "Only JPG/PNG allowed")

def uploadAccepted (originalname : String) (size : Nat) : Bool :=
  match mediaIntake originalname size with
  | Except.ok _ => true
  | Except.error _ => false

/-- The shape `REP\d{4}\d{6}`: the literal prefix `REP` followed by ten
decimal digits. -/
def isRepCaseId (s : String) : Bool :=
  s.data.take 3 == ['R', 'E', 'P'] &&
    (s.data.drop 3).length == 10 && (s.data.drop 3).all Char.isDigit

/-- The row built by the INSERT of `POST /api/reports` when validation has
passed: everything the handler binds into the VALUES list, plus the
store-assigned id, status default and timestamp. -/
def submittedRow (db : DB) (req : SubmitReq) (year rand now : Nat) : Report :=
  { id := db.nextId, case_id := genCaseId year rand,
    citizen_name := orNull req.citizen_name, email := orNull req.email,
    phone := orNull req.phone,
    image_path := req.photo.map (fun f => "/uploads/" ++ f),
    location := req.location.getD "", description := orNull req.description,
    issue_type := req.issue_type.getD "", status := Status.NEW,
    created_at := now }

/-- Fixture: a well-formed submission with no photo and no contact data. -/
def reqFix : SubmitReq :=
  { location := some "Main St and 5th", description := none,
    issue_type := some "pothole", citizen_name := none, email := none,
    phone := none, photo := none }

/-- Fixture: a submission with no `location`. -/
def reqNoLoc : SubmitReq :=
  { location := none, description := none, issue_type := some "pothole",
    citizen_name := none, email := none, phone := none, photo := none }

/-- Fixture: a submission whose optional text fields are empty strings or
absent. -/
def reqC10 : SubmitReq :=
  { location := some "Park Ave", description := some "",
    issue_type := some "garbage", citizen_name := some "",
    email := none, phone := some "", photo := none }

/-- Fixture: the empty store. -/
def emptyWorld : World := { db := { reports := [], nextId := 1 }, held := 0 }

/-- Fixture: one stored report. -/
def rowFix : Report :=
  { id := 1, case_id := "REP2025000042", citizen_name := none, email := none,
    phone := none, image_path := none, location := "Main St and 5th",
    description := none, issue_type := "pothole", status := Status.NEW,
    created_at := 11 }

/-- Fixture: a store holding `rowFix`. -/
def worldFix : World := { db := { reports := [rowFix], nextId := 2 }, held := 0 }

/-- Fixture: the row created by submitting `reqFix` with suffix 842 into the
empty store. -/
def rowC2 : Report :=
  { id := 1, case_id := genCaseId 2025 842, citizen_name := none,
    email := none, phone := none, image_path := none,
    location := "Main St and 5th", description := none,
    issue_type := "pothole", status := Status.NEW, created_at := 33 }

lemma falsy_some {s : String} (h : s ≠ "") : falsy (some s) = false := by
  simp [falsy, h]

lemma runHandler_held (w : World) (b : DB → HttpResponse × DB) :
    (runHandler w b).2.held = w.held := by
  simp [runHandler]

lemma updateStatusRows_no_match (reports : List Report) (i : Nat) (st : Status)
    (h : ∀ r ∈ reports, r.id ≠ i) : updateStatusRows reports i st = reports := by
  unfold updateStatusRows
  induction reports with
  | nil => rfl
  | cons a l ih =>
    have ha : a.id ≠ i := h a (by simp)
    simp only [List.map_cons, if_neg ha]
    rw [ih (fun r hr => h r (by simp [hr]))]

lemma apiSubmit_success (w : World) (req : SubmitReq) (year rand now : Nat)
    (h1 : falsy req.location = false) (h2 : falsy req.issue_type = false)
    (hc : hasCaseId w.db (genCaseId year rand) = false) :
    step (Op.apiSubmit req year rand now false) w =
      (⟨200, Body.jsonOkCase (genCaseId year rand)⟩,
       { db := { reports := w.db.reports ++ [submittedRow w.db req year rand now],
                 nextId := w.db.nextId + 1 }, held := w.held }) := by
  simp [step, runHandler, postApiReportsBody, h1, h2, insertReport, hc,
    submittedRow]

lemma submit_success (w : World) (req : SubmitReq) (year rand now : Nat)
    (loc ity : String)
    (hl : req.location = some loc) (hi : req.issue_type = some ity)
    (hc : hasCaseId w.db (genCaseId year rand) = false) :
    step (Op.submit req year rand now false) w =
      (⟨200, Body.successPage (genCaseId year rand)⟩,
       { db := { reports := w.db.reports ++ [submittedRow w.db req year rand now],
                 nextId := w.db.nextId + 1 }, held := w.held }) := by
  simp [step, runHandler, postReportBody, hl, hi, insertReport, hc,
    submittedRow]

lemma apiSubmit_reject (w : World) (req : SubmitReq) (year rand now : Nat)
    (dbFail : Bool)
    (h : falsy req.location = true ∨ falsy req.issue_type = true) :
    step (Op.apiSubmit req year rand now dbFail) w =
      (⟨400, Body.jsonError "location and issue_type required"⟩, w) := by
  have hb : (falsy req.location || falsy req.issue_type) = true := by
    rcases h with h | h <;> simp [h]
  simp [step, runHandler, postApiReportsBody, hb]

lemma find?_in_new (db : DB) (c : String) (r : Report)
    (hc : hasCaseId db c = false) (hr : r.case_id = c) :
    findByCaseId { reports := db.reports ++ [r], nextId := db.nextId + 1 } c =
      some r := by
  unfold findByCaseId hasCaseId at *
  rw [List.find?_append]
  have hnone : db.reports.find? (fun x => x.case_id == c) = none := by
    rw [List.find?_eq_none]
    intro x hx hpx
    rw [List.any_eq_false] at hc
    exact hc x hx hpx
  simp [hnone, List.find?, hr]

lemma orNull_eq_self {v : Option String} (h : v ≠ some "") : orNull v = v := by
  rcases v with _ | s
  · rfl
  · have hs : s ≠ "" := by
      intro he
      exact h (by rw [he])
    simp [orNull, hs]

/-- Everything a single request can do to the reports table: leave it alone,
append one freshly inserted row (whose status is `NEW`), or run the status
UPDATE. -/
lemma step_reports_shape (op : Op) (w : World) :
    (step op w).2.db.reports = w.db.reports ∨
    (∃ r2 : Report, r2.status = Status.NEW ∧
      (step op w).2.db.reports = w.db.reports ++ [r2]) ∨
    (∃ (i : Nat) (st : Status),
      (step op w).2.db.reports = updateStatusRows w.db.reports i st) := by
  cases op with
  | apiSubmit req year rand now dbFail =>
    by_cases hv : (falsy req.location || falsy req.issue_type) = true
    · left; simp [step, runHandler, postApiReportsBody, hv]
    · cases dbFail with
      | true => left; simp [step, runHandler, postApiReportsBody, hv]
      | false =>
        by_cases hdup : hasCaseId w.db (genCaseId year rand) = true
        · left
          simp [step, runHandler, postApiReportsBody, hv, insertReport, hdup]
        · right; left
          refine ⟨submittedRow w.db req year rand now, rfl, ?_⟩
          simp [step, runHandler, postApiReportsBody, hv, insertReport, hdup,
            submittedRow]
  | submit req year rand now dbFail =>
    cases dbFail with
    | true => left; simp [step, runHandler, postReportBody]
    | false =>
      rcases hloc : req.location with _ | loc
      · left; simp [step, runHandler, postReportBody, hloc]
      · rcases hity : req.issue_type with _ | ity
        · left; simp [step, runHandler, postReportBody, hloc, hity]
        · by_cases hdup : hasCaseId w.db (genCaseId year rand) = true
          · left
            simp [step, runHandler, postReportBody, hloc, hity, insertReport,
              hdup]
          · right; left
            refine ⟨submittedRow w.db req year rand now, rfl, ?_⟩
            simp [step, runHandler, postReportBody, hloc, hity, insertReport,
              hdup, submittedRow]
  | apiLookup c dbFail =>
    left
    cases dbFail with
    | true => simp [step, runHandler, getApiReportBody]
    | false =>
      rcases h : findByCaseId w.db c with _ | r <;>
        simp [step, runHandler, getApiReportBody, h]
  | track c dbFail =>
    left; cases dbFail <;> simp [step, runHandler, trackBody]
  | adminStatus i s dbFail =>
    cases dbFail with
    | true => left; simp [step, runHandler, adminStatusBody]
    | false =>
      rcases h : parseStatus s with _ | st
      · left; simp [step, runHandler, adminStatusBody, h]
      · right; right
        exact ⟨i, st, by simp [step, runHandler, adminStatusBody, h]⟩
  | adminCase i dbFail =>
    left
    cases dbFail with
    | true => simp [step, runHandler, adminCaseBody]
    | false =>
      rcases h : findById w.db i with _ | r <;>
        simp [step, runHandler, adminCaseBody, h]

lemma digitChar_isDigit {d : Nat} (h : d < 10) :
    (Nat.digitChar d).isDigit = true := by
  interval_cases d <;> decide

lemma toDigitsCore_digits :
    ∀ (f n : Nat) (ds : List Char), (∀ c ∈ ds, c.isDigit = true) →
      ∀ c ∈ Nat.toDigitsCore 10 f n ds, c.isDigit = true := by
  intro f
  induction f with
  | zero => intro n ds hds; simpa [Nat.toDigitsCore] using hds
  | succ f ih =>
    intro n ds hds
    have hd : (Nat.digitChar (n % 10)).isDigit = true :=
      digitChar_isDigit (Nat.mod_lt n (by norm_num))
    have hds2 : ∀ c ∈ Nat.digitChar (n % 10) :: ds, c.isDigit = true := by
      intro c hc
      rcases List.mem_cons.mp hc with h | h
      · rw [h]; exact hd
      · exact hds c h
    by_cases h0 : n / 10 = 0
    · simpa [Nat.toDigitsCore, h0] using hds2
    · simpa [Nat.toDigitsCore, h0] using ih (n / 10) _ hds2

lemma toDigitsCore_length_exact :
    ∀ (k f n : Nat) (ds : List Char), 10 ^ k ≤ n → n < 10 ^ (k + 1) →
      k < f → (Nat.toDigitsCore 10 f n ds).length = (k + 1) + ds.length := by
  intro k
  induction k with
  | zero =>
    intro f n ds h1 h2 hf
    obtain ⟨f2, rfl⟩ : ∃ f2, f = f2 + 1 := ⟨f - 1, by omega⟩
    have h0 : n / 10 = 0 := Nat.div_eq_of_lt (by simpa using h2)
    simp [Nat.toDigitsCore, h0]
    omega
  | succ k ih =>
    intro f n ds h1 h2 hf
    obtain ⟨f2, rfl⟩ : ∃ f2, f = f2 + 1 := ⟨f - 1, by omega⟩
    have hten : (10 : Nat) ≤ 10 ^ (k + 1) := by
      calc (10 : Nat) = 10 ^ 1 := (pow_one 10).symm
      _ ≤ 10 ^ (k + 1) := Nat.pow_le_pow_right (by norm_num) (by omega)
    have h0 : ¬ n / 10 = 0 := by
      have : 10 ≤ n := le_trans hten h1
      omega
    have hdiv1 : 10 ^ k ≤ n / 10 := by
      rw [Nat.le_div_iff_mul_le (by norm_num)]
      calc 10 ^ k * 10 = 10 ^ (k + 1) := (pow_succ 10 k).symm
      _ ≤ n := h1
    have hdiv2 : n / 10 < 10 ^ (k + 1) := by
      rw [Nat.div_lt_iff_lt_mul (by norm_num)]
      calc n < 10 ^ (k + 2) := h2
      _ = 10 ^ (k + 1) * 10 := pow_succ 10 (k + 1)
    have hr := ih f2 (n / 10) (Nat.digitChar (n % 10) :: ds) hdiv1 hdiv2
      (by omega)
    simp only [Nat.toDigitsCore, h0, if_false]
    rw [hr]
    simp only [List.length_cons]
    omega

lemma repr_data_length (k n : Nat) (h1 : 10 ^ k ≤ n) (h2 : n < 10 ^ (k + 1)) :
    (Nat.repr n).data.length = k + 1 := by
  have hf : k < n + 1 := by
    have : k < 10 ^ k := Nat.lt_pow_self (by norm_num) k
    omega
  have hd : (Nat.repr n).data = Nat.toDigitsCore 10 (n + 1) n [] := rfl
  rw [hd, toDigitsCore_length_exact k (n + 1) n [] h1 h2 hf]
  rfl

lemma repr_data_digits (n : Nat) :
    ∀ c ∈ (Nat.repr n).data, c.isDigit = true := by
  intro c hc
  refine toDigitsCore_digits (n + 1) n [] (by simp) c ?_
  have hd : (Nat.repr n).data = Nat.toDigitsCore 10 (n + 1) n [] := rfl
  rwa [hd] at hc

lemma repr_data_length_le (k n : Nat) (hk : 0 < k) (h : n < 10 ^ k) :
    (Nat.repr n).data.length ≤ k := by
  exact Nat.repr_length n k hk h

lemma padStart6_data (s : String) :
    (padStart6 s).data = List.replicate (6 - s.length) '0' ++ s.data := by
  unfold padStart6
  by_cases h : s.length < 6
  · rw [if_pos h]
    cases s
    rfl
  · rw [if_neg h]
    have : 6 - s.length = 0 := by omega
    simp [this]

lemma genCaseId_data (year rand : Nat) :
    (genCaseId year rand).data =
      'R' :: 'E' :: 'P' ::
        ((Nat.repr year).data ++ (padStart6 (Nat.repr rand)).data) := by
  unfold genCaseId
  rcases hy : Nat.repr year with ⟨dy⟩
  rcases hr : padStart6 (Nat.repr rand) with ⟨dr⟩
  rfl

/-- C1, as stated, is false on this code: two submissions that draw the same
random suffix in the same year do not both succeed.  The identifier is
generated once, the uniqueness violation is not retried, and the second
submission fails with the generic `500 {ok:false, error:"failed"}`. -/
theorem C1_counterexample :
    (step (Op.apiSubmit reqFix 2025 42 11 false) emptyWorld).1 =
      ⟨200, Body.jsonOkCase "REP2025000042"⟩ ∧
    (step (Op.apiSubmit reqFix 2025 42 12 false)
        (step (Op.apiSubmit reqFix 2025 42 11 false) emptyWorld).2).1 =
      ⟨500, Body.jsonFail⟩ := by decide

/-- C1 amended: when the freshly generated case identifier collides with an
existing report's `case_id`, the Lifecycle Service does not retry: there is
no regeneration, no bound of 5 attempts and no `IdentifierExhausted` — the
handler answers the generic `500 {ok:false, error:"failed"}` at the first
collision and the store is unchanged. -/
theorem C1_no_retry (w : World) (req : SubmitReq) (year rand now : Nat)
    (h1 : falsy req.location = false) (h2 : falsy req.issue_type = false)
    (hc : hasCaseId w.db (genCaseId year rand) = true) :
    step (Op.apiSubmit req year rand now false) w =
      (⟨500, Body.jsonFail⟩, w) := by
  simp [step, runHandler, postApiReportsBody, h1, h2, insertReport, hc]

/-- Witness for C1: a concrete collision with the stored fixture row. -/
theorem C1_witness :
    step (Op.apiSubmit reqFix 2025 42 99 false) worldFix =
      (⟨500, Body.jsonFail⟩, worldFix) :=
  C1_no_retry worldFix reqFix 2025 42 99 (by decide) (by decide) (by decide)

/-- C2: a valid submission (required fields present and non-empty, optional
fields either absent or non-empty, fresh identifier) succeeds, and looking
up the returned case identifier yields a record with `status = NEW` whose
fields echo the submitted values; moreover, across every modelled request,
any row not previously present (by surrogate id) was created with
`status = NEW`. -/
theorem C2_insert_find (w : World) (req : SubmitReq) (year rand now : Nat)
    (loc ity : String)
    (hl : req.location = some loc) (hl2 : loc ≠ "")
    (hi : req.issue_type = some ity) (hi2 : ity ≠ "")
    (hcn : req.citizen_name ≠ some "") (hem : req.email ≠ some "")
    (hph : req.phone ≠ some "") (hde : req.description ≠ some "")
    (hc : hasCaseId w.db (genCaseId year rand) = false) :
    ((step (Op.apiSubmit req year rand now false) w).1 =
        ⟨200, Body.jsonOkCase (genCaseId year rand)⟩ ∧
      ∃ r, findByCaseId (step (Op.apiSubmit req year rand now false) w).2.db
            (genCaseId year rand) = some r ∧
        r.status = Status.NEW ∧ r.location = loc ∧ r.issue_type = ity ∧
        r.citizen_name = req.citizen_name ∧ r.email = req.email ∧
        r.phone = req.phone ∧ r.description = req.description ∧
        r.image_path = req.photo.map (fun f => "/uploads/" ++ f) ∧
        r.created_at = now) ∧
    (∀ (op : Op) (w2 : World) (r2 : Report), r2 ∈ (step op w2).2.db.reports →
      (∃ r3 ∈ w2.db.reports, r3.id = r2.id) ∨ r2.status = Status.NEW) := by
  constructor
  · have h1 : falsy req.location = false := by rw [hl]; exact falsy_some hl2
    have h2 : falsy req.issue_type = false := by rw [hi]; exact falsy_some hi2
    rw [apiSubmit_success w req year rand now h1 h2 hc]
    refine ⟨rfl, submittedRow w.db req year rand now, ?_, rfl, ?_, ?_,
      orNull_eq_self hcn, orNull_eq_self hem, orNull_eq_self hph,
      orNull_eq_self hde, rfl, rfl⟩
    · exact find?_in_new w.db (genCaseId year rand) _ hc rfl
    · simp [submittedRow, hl]
    · simp [submittedRow, hi]
  · intro op w2 r2 hr2
    rcases step_reports_shape op w2 with h | ⟨rn, hst, h⟩ | ⟨i, st, h⟩
    · rw [h] at hr2
      exact Or.inl ⟨r2, hr2, rfl⟩
    · rw [h] at hr2
      rcases List.mem_append.mp hr2 with h2 | h2
      · exact Or.inl ⟨r2, h2, rfl⟩
      · right
        rw [List.mem_singleton.mp h2]
        exact hst
    · rw [h] at hr2
      unfold updateStatusRows at hr2
      rcases List.mem_map.mp hr2 with ⟨r3, hr3, he⟩
      left
      refine ⟨r3, hr3, ?_⟩
      rw [← he]
      by_cases hid : r3.id = i <;> simp [hid]

/-- Witness for C2: submitting `reqFix` into the empty store and reading the
identifier back. -/
theorem C2_witness :
    (step (Op.apiSubmit reqFix 2025 842 33 false) emptyWorld).1 =
      ⟨200, Body.jsonOkCase (genCaseId 2025 842)⟩ ∧
    (findByCaseId (step (Op.apiSubmit reqFix 2025 842 33 false) emptyWorld).2.db
        (genCaseId 2025 842)).map Report.status = some Status.NEW ∧
    (findByCaseId (step (Op.apiSubmit reqFix 2025 842 33 false) emptyWorld).2.db
        (genCaseId 2025 842)).map Report.location = some "Main St and 5th" ∧
    (findByCaseId (step (Op.apiSubmit reqFix 2025 842 33 false) emptyWorld).2.db
        (genCaseId 2025 842)).map Report.issue_type = some "pothole" ∧
    rowC2.status = Status.NEW := by
  have h := C2_insert_find emptyWorld reqFix 2025 842 33 "Main St and 5th"
    "pothole" rfl (by decide) rfl (by decide) (by decide) (by decide)
    (by decide) (by decide) (by decide)
  rcases h.1 with ⟨hresp, r, hfind, hst, hloc, hity, -, -, -, -, -, -⟩
  have hinv := h.2 (Op.apiSubmit reqFix 2025 842 33 false) emptyWorld rowC2
    (by decide)
  refine ⟨hresp, ?_, ?_, ?_, ?_⟩
  · rw [hfind]; simp [hst]
  · rw [hfind]; simp [hloc]
  · rw [hfind]; simp [hity]
  · rcases hinv with ⟨r3, hr3, -⟩ | hnew
    · exact absurd hr3 (List.not_mem_nil r3)
    · exact hnew

/-- C3: a submission to `POST /api/reports` missing `location` or
`issue_type` is answered `400 {error: "location and issue_type required"}`
and the state is untouched: no report row is created. -/
theorem C3_validation_reject (w : World) (req : SubmitReq)
    (year rand now : Nat) (dbFail : Bool)
    (h : req.location = none ∨ req.issue_type = none) :
    step (Op.apiSubmit req year rand now dbFail) w =
      (⟨400, Body.jsonError "location and issue_type required"⟩, w) := by
  apply apiSubmit_reject
  rcases h with h | h
  · left; rw [h]; rfl
  · right; rw [h]; rfl

/-- Witness for C3: a submission with no `location`. -/
theorem C3_witness :
    step (Op.apiSubmit reqNoLoc 2025 42 0 false) emptyWorld =
      (⟨400, Body.jsonError "location and issue_type required"⟩, emptyWorld) :=
  C3_validation_reject emptyWorld reqNoLoc 2025 42 0 false (Or.inl rfl)

/-- C4, as stated, is false on this code: a status update for a surrogate id
that matches no row does not fail with `NotFoundError` — the UPDATE matches
zero rows, the handler succeeds and redirects, and the store is unchanged. -/
theorem C4_counterexample :
    step (Op.adminStatus 1 "UNDER_REVIEW" false) emptyWorld =
      (⟨302, Body.redirectTo "/admin/case/1"⟩, emptyWorld) := by decide

/-- C4 amended: a status value outside the fixed set is rejected by the
store's ENUM column and surfaces as the generic 500 failure, leaving every
stored status unchanged (the update is atomic); a non-existent surrogate id
is a silent no-op — the handler redirects, with no `NotFoundError`, and the
store is unchanged. -/
theorem C4_amended :
    (∀ (w : World) (i : Nat) (s : String), parseStatus s = none →
      step (Op.adminStatus i s false) w =
        (⟨500, Body.text "Failed to update status"⟩, w)) ∧
    (∀ (w : World) (i : Nat) (s : String) (st : Status),
      parseStatus s = some st → findById w.db i = none →
      step (Op.adminStatus i s false) w =
        (⟨302, Body.redirectTo ("/admin/case/" ++ Nat.repr i)⟩, w)) := by
  constructor
  · intro w i s hs
    simp [step, runHandler, adminStatusBody, hs]
  · intro w i s st hs hid
    unfold findById at hid
    rw [List.find?_eq_none] at hid
    have hno : ∀ r ∈ w.db.reports, r.id ≠ i := by
      intro r hr he
      exact hid r hr (by simp [he])
    simp [step, runHandler, adminStatusBody, hs,
      updateStatusRows_no_match w.db.reports i st hno]

/-- Witness for C4: the invalid value `"BOGUS"` on an existing row, and a
valid value on a missing id. -/
theorem C4_witness :
    step (Op.adminStatus 1 "BOGUS" false) worldFix =
      (⟨500, Body.text "Failed to update status"⟩, worldFix) ∧
    step (Op.adminStatus 7 "VERIFIED" false) worldFix =
      (⟨302, Body.redirectTo "/admin/case/7"⟩, worldFix) :=
  ⟨C4_amended.1 worldFix 1 "BOGUS" (by decide),
   C4_amended.2 worldFix 7 "VERIFIED" Status.VERIFIED (by decide) (by decide)⟩

/-- C5: `GET /api/reports/:caseId` answers 200 with exactly the projection
`{case_id, status, issue_type, location, created_at}` when the case exists,
and `404 {error: "not found"}` when it does not; an unmatched identifier is
never an error, and the state is untouched either way. -/
theorem C5_lookup (w : World) (c : String) :
    (∀ r, findByCaseId w.db c = some r →
      step (Op.apiLookup c false) w =
        (⟨200, Body.jsonProj (projectReport r)⟩, w)) ∧
    (findByCaseId w.db c = none →
      step (Op.apiLookup c false) w = (⟨404, Body.jsonError "not found"⟩, w)) := by
  constructor
  · intro r hr
    simp [step, runHandler, getApiReportBody, hr]
  · intro h
    simp [step, runHandler, getApiReportBody, h]

/-- Witness for C5: a hit on the fixture row and a miss on a never-issued
identifier. -/
theorem C5_witness :
    step (Op.apiLookup "REP2025000042" false) worldFix =
      (⟨200, Body.jsonProj
        ⟨"REP2025000042", Status.NEW, "pothole", "Main St and 5th", 11⟩⟩,
       worldFix) ∧
    step (Op.apiLookup "REP2025999999" false) worldFix =
      (⟨404, Body.jsonError "not found"⟩, worldFix) :=
  ⟨(C5_lookup worldFix "REP2025000042").1 rowFix (by decide),
   (C5_lookup worldFix "REP2025999999").2 (by decide)⟩

/-- C6: every identifier produced by `genCaseId` for a 4-digit current year
and a random draw below 1e6 matches `REP\d{4}\d{6}`: the literal `REP`, the
four digits of the year, then the 6-digit zero-padded suffix. -/
theorem C6_case_id_pattern (year rand : Nat)
    (h1 : 1000 ≤ year) (h2 : year < 10000) (h3 : rand < 1000000) :
    isRepCaseId (genCaseId year rand) = true := by
  have hylen : (Nat.repr year).data.length = 4 :=
    repr_data_length 3 year (by norm_num; omega) (by norm_num; omega)
  have hrlen : (Nat.repr rand).data.length ≤ 6 :=
    repr_data_length_le 6 rand (by norm_num) (by norm_num; omega)
  have hslen : String.length (Nat.repr rand) = (Nat.repr rand).data.length :=
    rfl
  have hpad : (padStart6 (Nat.repr rand)).data.length = 6 := by
    rw [padStart6_data, List.length_append, List.length_replicate, hslen]
    omega
  have hpdig : ∀ c ∈ (padStart6 (Nat.repr rand)).data, c.isDigit = true := by
    rw [padStart6_data]
    intro c hc
    rcases List.mem_append.mp hc with h | h
    · rw [List.eq_of_mem_replicate h]; decide
    · exact repr_data_digits rand c h
  unfold isRepCaseId
  rw [genCaseId_data]
  set rest := (Nat.repr year).data ++ (padStart6 (Nat.repr rand)).data
    with hrest
  have hrl : rest.length = 10 := by
    rw [hrest, List.length_append, hylen, hpad]
  have hrd : rest.all Char.isDigit = true := by
    rw [List.all_eq_true]
    intro c hc
    rcases List.mem_append.mp (hrest ▸ hc) with h | h
    · exact repr_data_digits year c h
    · exact hpdig c h
  show (('R' :: 'E' :: 'P' :: rest).take 3 == ['R', 'E', 'P'] &&
    (('R' :: 'E' :: 'P' :: rest).drop 3).length == 10 &&
    (('R' :: 'E' :: 'P' :: rest).drop 3).all Char.isDigit) = true
  simp [hrl, hrd]

/-- Witness for C6: the identifier generated in 2025 with suffix draw 42. -/
theorem C6_witness : isRepCaseId (genCaseId 2025 42) = true :=
  C6_case_id_pattern 2025 42 (by norm_num) (by norm_num) (by norm_num)

/-- C7: an upload is accepted iff its extension, lowercased, is `.jpg`,
`.jpeg` or `.png` and its size is at most 5 MiB (5242880 bytes); a `.gif`
of any size is rejected by the filter with a validation error, a 6 MiB
`.png` exceeds the size limit, and a 4 MiB `.jpg` is accepted. -/
theorem C7_media_intake :
    (∀ (name : String) (size : Nat),
      uploadAccepted name size = true ↔
        ((lowerStr (extname name) = ".jpg" ∨ lowerStr (extname name) = ".jpeg" ∨
          lowerStr (extname name) = ".png") ∧ size ≤ 5242880)) ∧
    (∀ size : Nat, mediaIntake "photo.gif" size =
      Except.error (UploadError.validErr "Only JPG/PNG allowed")) ∧
    mediaIntake "big.png" (6 * 1024 * 1024) =
      Except.error UploadError.payloadTooLarge ∧
    mediaIntake "ok.jpg" (4 * 1024 * 1024) = Except.ok () := by
  refine ⟨?_, ?_, by rfl, by rfl⟩
  · intro name size
    have hacc : uploadAccepted name size = true ↔
        (fileFilterOk name = true ∧ size ≤ fileSizeLimit) := by
      unfold uploadAccepted mediaIntake
      split_ifs with h1 h2 <;> simp_all
    have hext : fileFilterOk name = true ↔
        (lowerStr (extname name) = ".jpg" ∨ lowerStr (extname name) = ".jpeg" ∨
         lowerStr (extname name) = ".png") := by
      unfold fileFilterOk allowedExts
      simp
    rw [hacc, hext, fileSizeLimit]
  · intro size
    have h : fileFilterOk "photo.gif" = false := by decide
    simp [mediaIntake, h]

/-- C8: no request mutates anything but `status`: every report row present
before a request is still present after it, with the same id and with every
field other than `status` unchanged — in particular no row is ever
deleted. -/
theorem C8_frame (op : Op) (w : World) (r : Report)
    (hr : r ∈ w.db.reports) :
    ∃ r2 ∈ (step op w).2.db.reports,
      r2.id = r.id ∧ r2.case_id = r.case_id ∧
      r2.citizen_name = r.citizen_name ∧ r2.email = r.email ∧
      r2.phone = r.phone ∧ r2.image_path = r.image_path ∧
      r2.location = r.location ∧ r2.description = r.description ∧
      r2.issue_type = r.issue_type ∧ r2.created_at = r.created_at := by
  rcases step_reports_shape op w with h | ⟨rn, -, h⟩ | ⟨i, st, h⟩
  · exact ⟨r, by rw [h]; exact hr, rfl, rfl, rfl, rfl, rfl, rfl, rfl, rfl,
      rfl, rfl⟩
  · exact ⟨r, by rw [h]; exact List.mem_append_left _ hr, rfl, rfl, rfl, rfl,
      rfl, rfl, rfl, rfl, rfl, rfl⟩
  · refine ⟨if r.id = i then { r with status := st } else r, ?_, ?_⟩
    · rw [h]
      exact List.mem_map_of_mem _ hr
    · by_cases hid : r.id = i <;> simp [hid]

/-- Witness for C8: the fixture row survives a status update to `CLOSED`
with all other fields intact. -/
theorem C8_witness :
    ((step (Op.adminStatus 1 "CLOSED" false) worldFix).2.db.reports.any
      (fun r2 => r2.id == rowFix.id && r2.case_id == rowFix.case_id &&
        r2.citizen_name == rowFix.citizen_name && r2.email == rowFix.email &&
        r2.phone == rowFix.phone && r2.image_path == rowFix.image_path &&
        r2.location == rowFix.location &&
        r2.description == rowFix.description &&
        r2.issue_type == rowFix.issue_type &&
        r2.created_at == rowFix.created_at)) = true := by
  rcases C8_frame (Op.adminStatus 1 "CLOSED" false) worldFix rowFix (by decide)
    with ⟨r2, hmem, h1, h2, h3, h4, h5, h6, h7, h8, h9, h10⟩
  exact List.any_eq_true.mpr
    ⟨r2, hmem, by simp [h1, h2, h3, h4, h5, h6, h7, h8, h9, h10]⟩

/-- C9: every handler acquires one pool connection and releases it in its
`finally` block on every exit path — validation rejections, catch branches
and successes alike — so after any request the number of held connections is
back to its value before the request. -/
theorem C9_release (op : Op) (w : World) : (step op w).2.held = w.held := by
  cases op <;> exact runHandler_held ..

/-- C10: both submission handlers — `POST /api/reports` (app.js lines
201-205) and `POST /report` (app.js lines 153-157) — coerce each optional
text field with `|| null`, so an empty-string field and an absent field are
both stored as `NULL`, and two submissions differing only in
empty-string-versus-absent for such a field are indistinguishable: they
produce identical responses and states on either path. -/
theorem C10_empty_as_null (w : World) (req : SubmitReq) (year rand now : Nat)
    (loc ity : String)
    (hl : req.location = some loc) (hl2 : loc ≠ "")
    (hi : req.issue_type = some ity) (hi2 : ity ≠ "")
    (hc : hasCaseId w.db (genCaseId year rand) = false) :
    (∃ r, findByCaseId (step (Op.apiSubmit req year rand now false) w).2.db
          (genCaseId year rand) = some r ∧
      ((req.citizen_name = none ∨ req.citizen_name = some "") →
        r.citizen_name = none) ∧
      ((req.email = none ∨ req.email = some "") → r.email = none) ∧
      ((req.phone = none ∨ req.phone = some "") → r.phone = none) ∧
      ((req.description = none ∨ req.description = some "") →
        r.description = none)) ∧
    (∃ r, findByCaseId (step (Op.submit req year rand now false) w).2.db
          (genCaseId year rand) = some r ∧
      ((req.citizen_name = none ∨ req.citizen_name = some "") →
        r.citizen_name = none) ∧
      ((req.email = none ∨ req.email = some "") → r.email = none) ∧
      ((req.phone = none ∨ req.phone = some "") → r.phone = none) ∧
      ((req.description = none ∨ req.description = some "") →
        r.description = none)) ∧
    (∀ (w2 : World) (req2 : SubmitReq) (y2 r2 n2 : Nat) (f2 : Bool),
      step (Op.apiSubmit { req2 with citizen_name := some "" } y2 r2 n2 f2) w2 =
        step (Op.apiSubmit { req2 with citizen_name := none } y2 r2 n2 f2) w2 ∧
      step (Op.apiSubmit { req2 with email := some "" } y2 r2 n2 f2) w2 =
        step (Op.apiSubmit { req2 with email := none } y2 r2 n2 f2) w2 ∧
      step (Op.apiSubmit { req2 with phone := some "" } y2 r2 n2 f2) w2 =
        step (Op.apiSubmit { req2 with phone := none } y2 r2 n2 f2) w2 ∧
      step (Op.apiSubmit { req2 with description := some "" } y2 r2 n2 f2) w2 =
        step (Op.apiSubmit { req2 with description := none } y2 r2 n2 f2) w2 ∧
      step (Op.submit { req2 with citizen_name := some "" } y2 r2 n2 f2) w2 =
        step (Op.submit { req2 with citizen_name := none } y2 r2 n2 f2) w2 ∧
      step (Op.submit { req2 with email := some "" } y2 r2 n2 f2) w2 =
        step (Op.submit { req2 with email := none } y2 r2 n2 f2) w2 ∧
      step (Op.submit { req2 with phone := some "" } y2 r2 n2 f2) w2 =
        step (Op.submit { req2 with phone := none } y2 r2 n2 f2) w2 ∧
      step (Op.submit { req2 with description := some "" } y2 r2 n2 f2) w2 =
        step (Op.submit { req2 with description := none } y2 r2 n2 f2) w2) := by
  refine ⟨?_, ?_, ?_⟩
  · have h1 : falsy req.location = false := by rw [hl]; exact falsy_some hl2
    have h2 : falsy req.issue_type = false := by rw [hi]; exact falsy_some hi2
    rw [apiSubmit_success w req year rand now h1 h2 hc]
    refine ⟨submittedRow w.db req year rand now,
      find?_in_new w.db (genCaseId year rand) _ hc rfl, ?_, ?_, ?_, ?_⟩ <;>
      · rintro (h | h) <;> simp [submittedRow, h, orNull]
  · rw [submit_success w req year rand now loc ity hl hi hc]
    refine ⟨submittedRow w.db req year rand now,
      find?_in_new w.db (genCaseId year rand) _ hc rfl, ?_, ?_, ?_, ?_⟩ <;>
      · rintro (h | h) <;> simp [submittedRow, h, orNull]
  · intro w2 req2 y2 r2 n2 f2
    refine ⟨?_, ?_, ?_, ?_, ?_, ?_, ?_, ?_⟩ <;> rfl

/-- Witness for C10: a submission whose optional fields are empty strings or
absent is stored with `NULL` in all four of them, on the API path and on the
form path alike. -/
theorem C10_witness :
    (findByCaseId (step (Op.apiSubmit reqC10 2025 7 5 false) emptyWorld).2.db
        (genCaseId 2025 7)).map Report.citizen_name = some none ∧
    (findByCaseId (step (Op.apiSubmit reqC10 2025 7 5 false) emptyWorld).2.db
        (genCaseId 2025 7)).map Report.email = some none ∧
    (findByCaseId (step (Op.apiSubmit reqC10 2025 7 5 false) emptyWorld).2.db
        (genCaseId 2025 7)).map Report.phone = some none ∧
    (findByCaseId (step (Op.apiSubmit reqC10 2025 7 5 false) emptyWorld).2.db
        (genCaseId 2025 7)).map Report.description = some none ∧
    (findByCaseId (step (Op.submit reqC10 2025 7 5 false) emptyWorld).2.db
        (genCaseId 2025 7)).map Report.citizen_name = some none ∧
    (findByCaseId (step (Op.submit reqC10 2025 7 5 false) emptyWorld).2.db
        (genCaseId 2025 7)).map Report.email = some none ∧
    (findByCaseId (step (Op.submit reqC10 2025 7 5 false) emptyWorld).2.db
        (genCaseId 2025 7)).map Report.phone = some none ∧
    (findByCaseId (step (Op.submit reqC10 2025 7 5 false) emptyWorld).2.db
        (genCaseId 2025 7)).map Report.description = some none := by
  have h := C10_empty_as_null emptyWorld reqC10 2025 7 5 "Park Ave" "garbage"
    rfl (by decide) rfl (by decide) (by decide)
  rcases h.1 with ⟨r, hfind, hcn, hem, hph, hde⟩
  rcases h.2.1 with ⟨rf, hfindf, hcnf, hemf, hphf, hdef⟩
  rw [hfind, hfindf]
  simp [hcn (Or.inr rfl), hem (Or.inl rfl), hph (Or.inr rfl),
    hde (Or.inr rfl), hcnf (Or.inr rfl), hemf (Or.inl rfl),
    hphf (Or.inr rfl), hdef (Or.inr rfl)]

end Technova
